import Mathlib

/-!
Verification of the motor-control sketch (src/lab-3/motor-control/motor-control.ino).

The program is embedded shallowly:

* machine integers are modelled as `Int`/`Nat`; the 16-bit `unsigned int`
  counters wrap with an explicit `% 65536`, and the `unsigned int → int`
  snapshot conversion is the usual two's-complement reinterpretation;
* the `float` setpoint and the serial number formatting are modelled over `ℚ`
  (every value the program handles here is a small integer or an exact decimal,
  so rational arithmetic coincides with the IEEE values at the points proved);
* the two interrupt routines become pure state-transition functions over an
  explicit state record, and serial/PWM output becomes explicit output values.
-/

set_option autoImplicit false

namespace MotorControl

/-! ### Compile-time constants (top of the sketch) -/

/-- CSV-output option: `bool include_time_in_data = false;`. -/
def include_time_in_data : Bool := false

/-- `const int minimum_control_action = 0;`. -/
def minimum_control_action : Int := 0

/-- `const int maximum_control_action = 250;`. -/
def maximum_control_action : Int := 250

/-- `const int initialMotorSetpoint = 20;`. -/
def initialMotorSetpoint : Int := 20

/-- Modulus of the 16-bit `unsigned int` type of the AVR target. -/
def UINT_MOD : Nat := 65536

/-! ### The bang-bang control law

`int CalculateControlAction(int &currentCount, float &setpoint, float &error_sum)`
compares the count against the setpoint and returns one of the two action
levels.  The reference parameters are never written, so the function is a pure
function of its three inputs (`error_sum` is not even read). -/

/-- Embedding of `CalculateControlAction`: `if (currentCount < setpoint) return
maximum_control_action; else return minimum_control_action;`.  The `int`
operand of the comparison is promoted to the setpoint's numeric type. -/
def CalculateControlAction (currentCount : Int) (setpoint : ℚ)
    (error_sum : ℚ) : Int :=
  if (currentCount : ℚ) < setpoint then maximum_control_action
  else minimum_control_action

/-! ### Controller state

The sketch's mutable globals that the two ISRs touch. -/

/-- The mutable globals of the sketch: the edge counter and edge-level flag
written by the Timer1 ISR, the decimation counter of the Timer2 ISR, and the
controller variables `setpoint` and `accumulated_error`. -/
structure CtrlState where
  encoderCounts : Nat
  lastStateHigh : Bool
  divide_frequency_counter : Nat
  setpoint : ℚ
  accumulated_error : ℚ
  deriving Repr, DecidableEq

/-- The state right after `setup()`: the globals carry their initializers
(`encoderCounts = 0`, `lastStateHigh = false`, `divide_frequency_counter = 0`,
`accumulated_error = 0`) and `setup()` assigns
`setpoint = initialMotorSetpoint`. -/
def initState : CtrlState where
  encoderCounts := 0
  lastStateHigh := false
  divide_frequency_counter := 0
  setpoint := (initialMotorSetpoint : ℚ)
  accumulated_error := 0

/-! ### Timer1 ISR: edge sampling -/

/-- Embedding of `ISR(TIMER1_COMPA_vect)`.  The argument `pinHigh` is the level
returned by `digitalRead(encoderInPin)` (`true` for `1`).  On a qualifying
transition the 16-bit counter is incremented (wrapping) and the remembered
level is flipped; otherwise the state is unchanged. -/
def timer1ISR (pinHigh : Bool) (s : CtrlState) : CtrlState :=
  if s.lastStateHigh && !pinHigh then
    { s with encoderCounts := (s.encoderCounts + 1) % UINT_MOD,
             lastStateHigh := false }
  else if !s.lastStateHigh && pinHigh then
    { s with lastStateHigh := true,
             encoderCounts := (s.encoderCounts + 1) % UINT_MOD }
  else s

/-! ### Serial number formatting

The telemetry line is produced with `Serial.print`.  Arduino's `Print` class
prints an `int` in decimal and prints a `float` via `printFloat`, which adds a
rounding offset of `0.5 / 10^digits`, prints the integer part, and then emits
`digits` decimal digits by repeated multiply-by-ten-and-truncate (two digits by
default).  That algorithm is reproduced here over `ℚ`. -/

/-- Decimal rendering of an `int`. -/
def intRepr (i : Int) : String :=
  if i < 0 then "-" ++ Nat.repr i.natAbs else Nat.repr i.natAbs

/-- The fractional-digit loop of Arduino's `Print::printFloat`: repeatedly
multiply the remainder by ten, print the integer part, and keep the new
remainder. -/
def printDigits : Nat → ℚ → String
  | 0, _ => ""
  | d + 1, rem =>
    let r10 := rem * 10
    let toPrint : Nat := r10.floor.toNat
    Nat.repr toPrint ++ printDigits d (r10 - (toPrint : ℚ))

/-- Arduino's `Print::printFloat number digits`: sign, rounding offset
`0.5 / 10^digits` (written as `mkRat 1 (2 * 10 ^ digits)`, the same rational),
integer part, decimal point, then `digits` fractional digits. -/
def printFloat (number : ℚ) (digits : Nat) : String :=
  let sign := if number < 0 then "-" else ""
  let n := (if number < 0 then -number else number) + mkRat 1 (2 * 10 ^ digits)
  let int_part : Nat := n.floor.toNat
  sign ++ Nat.repr int_part ++ (if 0 < digits then "." else "") ++
    printDigits digits (n - (int_part : ℚ))

/-- The telemetry line the control cycle prints (without the terminating
newline of `Serial.println`): optional timestamp with 4 decimals, the snapshot
count printed as an `int` followed by the literal `".0"`, the `float` setpoint
(2 decimals), and the clamped action divided by `10.0` (2 decimals). -/
def telemetryLine (include_time : Bool) (timeInSeconds : ℚ)
    (currentCount : Int) (setpoint : ℚ) (control_action : Int) : String :=
  (if include_time then printFloat timeInSeconds 4 ++ "," else "") ++
    intRepr currentCount ++ ".0" ++
    "," ++ printFloat setpoint 2 ++
    "," ++ printFloat (mkRat control_action 10) 2

/-! ### Timer2 ISR: decimating scheduler and control cycle -/

/-- Reinterpretation of a 16-bit unsigned value as a (signed) `int`, as in
`int currentCount = encoderCounts;`. -/
def toInt16 (n : Nat) : Int :=
  if n < 32768 then (n : Int) else (n : Int) - 65536

/-- The externally visible effect of one control cycle: the value written by
`analogWrite(motorPWMPin, ...)` and the serial line. -/
structure CycleOutput where
  pwm : Int
  line : String
  deriving Repr, DecidableEq

/-- The body of the `divide_frequency_counter >= 5` branch of the Timer2 ISR:
snapshot `encoderCounts` into `currentCount` and reset the counter, run
`CalculateControlAction`, clamp the result to
`[minimum_control_action, maximum_control_action]`, write it to the PWM pin
and print the telemetry line.  The `micros()` timestamp is irrelevant here
because `include_time_in_data` is `false`; it is passed as `0`. -/
def controlCycle (s : CtrlState) : CtrlState × CycleOutput :=
  let currentCount : Int := toInt16 s.encoderCounts
  let s1 := { s with encoderCounts := 0 }
  let raw := CalculateControlAction currentCount s.setpoint s.accumulated_error
  let control_action :=
    if raw < minimum_control_action then minimum_control_action
    else if raw > maximum_control_action then maximum_control_action
    else raw
  (s1,
   { pwm := control_action
     line := telemetryLine include_time_in_data 0 currentCount s.setpoint
       control_action })

/-- The clamping step of the Timer2 ISR in isolation (`if (control_action <
minimum_control_action) ... else if (control_action > maximum_control_action)
...`). -/
def clampAction (control_action : Int) : Int :=
  if control_action < minimum_control_action then minimum_control_action
  else if control_action > maximum_control_action then maximum_control_action
  else control_action

/-- Embedding of `ISR(TIMER2_COMPA_vect)`: if the decimation counter has
reached 5 it is reset to `0` and one control cycle runs; in every case the
counter is then incremented (a wrapping 16-bit increment).  The second
component reports whether (and with which output) a control cycle executed. -/
def timer2ISR (s : CtrlState) : CtrlState × Option CycleOutput :=
  if s.divide_frequency_counter ≥ 5 then
    let p := controlCycle { s with divide_frequency_counter := 0 }
    ({ p.1 with divide_frequency_counter :=
        (p.1.divide_frequency_counter + 1) % UINT_MOD },
     some p.2)
  else
    ({ s with divide_frequency_counter :=
        (s.divide_frequency_counter + 1) % UINT_MOD },
     none)

/-- State after `n` invocations of the Timer2 ISR from the initial state
(no Timer1 interleaving: the runs considered by the scheduler claims). -/
def runTimer2 : Nat → CtrlState
  | 0 => initState
  | n + 1 => (timer2ISR (runTimer2 n)).1

/-- Number of control cycles executed during the first `n` invocations of the
Timer2 ISR from the initial state. -/
def cyclesIn : Nat → Nat
  | 0 => 0
  | n + 1 => cyclesIn n + if (timer2ISR (runTimer2 n)).2.isSome then 1 else 0

/-! ### The setpoint source -/

/-- Arduino's `map` (long arithmetic, C truncating division). -/
def map (x in_min in_max out_min out_max : Int) : Int :=
  Int.tdiv ((x - in_min) * (out_max - out_min)) (in_max - in_min) + out_min

/-- The assignment in `loop()`:
`setpoint = map(analogRead(A0), 0, 1023, 0, 50);` as a function of the raw
analog reading. -/
def setpointFromAnalog (raw : Int) : ℚ :=
  ((map raw 0 1023 0 50 : Int) : ℚ)

end MotorControl

/-! ### Spec-side definitions used for comparison -/

namespace MotorControl

/-- The Edge-Sampling Timer step as the specification words it ("if Last Edge
Level is true and the level is low, it increments Pulse Counter and sets Last
Edge Level false; else if Last Edge Level is false and the level is high, it
increments Pulse Counter and sets Last Edge Level true; otherwise it changes no
state"); the increment is the 16-bit increment of the counter's type.
Compared against the code's `timer1ISR`. -/
def timer1SpecStep (pinHigh : Bool) (s : CtrlState) : CtrlState :=
  if s.lastStateHigh = true ∧ pinHigh = false then
    { s with encoderCounts := (s.encoderCounts + 1) % UINT_MOD,
             lastStateHigh := false }
  else if s.lastStateHigh = false ∧ pinHigh = true then
    { s with encoderCounts := (s.encoderCounts + 1) % UINT_MOD,
             lastStateHigh := true }
  else s

/-- Number of qualifying level transitions in a sequence of sampled pin
levels, starting from a remembered level `last`: a high-to-low transition when
the remembered level is high, or a low-to-high transition when it is low, each
of which updates the remembered level. -/
def countQual (last : Bool) : List Bool → Nat
  | [] => 0
  | p :: ps =>
    if last = true ∧ p = false then 1 + countQual false ps
    else if last = false ∧ p = true then 1 + countQual true ps
    else countQual last ps

/-- The state after the Timer1 ISR has run once per entry of `pins` (the
successive levels read from the encoder pin), in order. -/
def runTimer1 (s : CtrlState) (pins : List Bool) : CtrlState :=
  pins.foldl (fun st p => timer1ISR p st) s

end MotorControl

/-! ### Helper lemmas -/

namespace MotorControl

/-- `controlCycle` only zeroes the pulse counter in the state. -/
theorem controlCycle_fst (s : CtrlState) :
    (controlCycle s).1 = { s with encoderCounts := 0 } := rfl

/-- Closed form of the decimation counter along a pure Timer2 run: `0` at
start, then `(n - 1) % 5 + 1` after `n ≥ 1` invocations. -/
theorem divide_counter_eq (n : Nat) :
    (runTimer2 n).divide_frequency_counter
      = if n = 0 then 0 else (n - 1) % 5 + 1 := by
  induction n with
  | zero => rfl
  | succ n ih =>
    show (timer2ISR (runTimer2 n)).1.divide_frequency_counter = _
    rw [timer2ISR, if_neg (Nat.succ_ne_zero n), Nat.succ_sub_one]
    by_cases h5 : (runTimer2 n).divide_frequency_counter ≥ 5
    · rw [if_pos h5]
      simp only [controlCycle_fst, UINT_MOD]
      split at ih <;> omega
    · rw [if_neg h5]
      simp only [UINT_MOD]
      split at ih <;> omega

/-- The Timer2 ISR reports a control cycle exactly when the decimation counter
has reached 5. -/
theorem timer2ISR_isSome (s : CtrlState) :
    (timer2ISR s).2.isSome = true ↔ 5 ≤ s.divide_frequency_counter := by
  rw [timer2ISR]
  split
  · simpa using by assumption
  · simpa using by omega

/-- A qualifying-transition count never exceeds the number of samples. -/
theorem countQual_le_length (last : Bool) (pins : List Bool) :
    countQual last pins ≤ pins.length := by
  induction pins generalizing last with
  | nil => simp [countQual]
  | cons p ps ih =>
    rw [countQual]
    split
    · simpa [Nat.add_comm] using Nat.add_le_add_right (ih false) 1
    · split
      · simpa [Nat.add_comm] using Nat.add_le_add_right (ih true) 1
      · exact Nat.le_succ_of_le (ih last)

/-- As long as the 16-bit counter cannot wrap, a Timer1 run adds exactly the
number of qualifying transitions to the counter. -/
theorem runTimer1_encoderCounts (pins : List Bool) (s : CtrlState)
    (h : s.encoderCounts + countQual s.lastStateHigh pins < UINT_MOD) :
    (runTimer1 s pins).encoderCounts
      = s.encoderCounts + countQual s.lastStateHigh pins := by
  induction pins generalizing s with
  | nil => simp [runTimer1, countQual]
  | cons p ps ih =>
    obtain ⟨c, l, d, sp, ae⟩ := s
    rw [runTimer1, List.foldl_cons]
    cases l <;> cases p
    · show (List.foldl (fun st q => timer1ISR q st)
          (⟨c, false, d, sp, ae⟩ : CtrlState) ps).encoderCounts
        = c + countQual false (false :: ps)
      rw [show countQual false (false :: ps) = countQual false ps from rfl]
      exact ih ⟨c, false, d, sp, ae⟩ h
    · show (List.foldl (fun st q => timer1ISR q st)
          (⟨(c + 1) % UINT_MOD, true, d, sp, ae⟩ : CtrlState) ps).encoderCounts
        = c + countQual false (true :: ps)
      rw [show countQual false (true :: ps) = 1 + countQual true ps from rfl]
      have h1 : c + (1 + countQual true ps) < UINT_MOD := h
      have hsmall : c + 1 < UINT_MOD := by
        simp only [UINT_MOD] at h1 ⊢
        omega
      rw [Nat.mod_eq_of_lt hsmall]
      have h2 : (⟨c + 1, true, d, sp, ae⟩ : CtrlState).encoderCounts
          + countQual (⟨c + 1, true, d, sp, ae⟩ : CtrlState).lastStateHigh ps
          < UINT_MOD := by
        show c + 1 + countQual true ps < UINT_MOD
        omega
      have h3 := ih ⟨c + 1, true, d, sp, ae⟩ h2
      rw [runTimer1] at h3
      rw [h3]
      show c + 1 + countQual true ps = c + (1 + countQual true ps)
      omega
    · show (List.foldl (fun st q => timer1ISR q st)
          (⟨(c + 1) % UINT_MOD, false, d, sp, ae⟩ : CtrlState) ps).encoderCounts
        = c + countQual true (false :: ps)
      rw [show countQual true (false :: ps) = 1 + countQual false ps from rfl]
      have h1 : c + (1 + countQual false ps) < UINT_MOD := h
      have hsmall : c + 1 < UINT_MOD := by
        simp only [UINT_MOD] at h1 ⊢
        omega
      rw [Nat.mod_eq_of_lt hsmall]
      have h2 : (⟨c + 1, false, d, sp, ae⟩ : CtrlState).encoderCounts
          + countQual (⟨c + 1, false, d, sp, ae⟩ : CtrlState).lastStateHigh ps
          < UINT_MOD := by
        show c + 1 + countQual false ps < UINT_MOD
        omega
      have h3 := ih ⟨c + 1, false, d, sp, ae⟩ h2
      rw [runTimer1] at h3
      rw [h3]
      show c + 1 + countQual false ps = c + (1 + countQual false ps)
      omega
    · show (List.foldl (fun st q => timer1ISR q st)
          (⟨c, true, d, sp, ae⟩ : CtrlState) ps).encoderCounts
        = c + countQual true (true :: ps)
      rw [show countQual true (true :: ps) = countQual true ps from rfl]
      exact ih ⟨c, true, d, sp, ae⟩ h

end MotorControl

/-! ### The claims -/

namespace MotorControl

/-- C1: `CalculateControlAction` is a pure function of its inputs: for every
measured count `C` and setpoint `S` it returns `maximum_control_action` (250)
if and only if `C < S` and `minimum_control_action` (0) otherwise, its value is
always one of those two, and at the boundaries (setpoint equal to the count,
one above it — i.e. `C = S - 1` — and one below it — i.e. `C = S + 1`) it
returns 0, 250 and 0 respectively.  Statelessness holds by construction: the
embedding of the function is pure, and `claim_C8` shows the control cycle
leaves the only candidate state untouched. -/
theorem claim_C1 (C : Int) (S e : ℚ) :
    (CalculateControlAction C S e = maximum_control_action ↔ (C : ℚ) < S) ∧
    (CalculateControlAction C S e = minimum_control_action ↔ ¬(C : ℚ) < S) ∧
    (CalculateControlAction C S e = minimum_control_action ∨
      CalculateControlAction C S e = maximum_control_action) ∧
    CalculateControlAction C ((C : ℚ)) e = minimum_control_action ∧
    CalculateControlAction C ((C : ℚ) + 1) e = maximum_control_action ∧
    CalculateControlAction C ((C : ℚ) - 1) e = minimum_control_action := by
  unfold CalculateControlAction minimum_control_action maximum_control_action
  refine ⟨?_, ?_, ?_, ?_, ?_, ?_⟩
  · split <;> simp_all
  · split <;> simp_all
  · split <;> simp
  · rw [if_neg (lt_irrefl _)]
  · rw [if_pos (by linarith)]
  · rw [if_neg (by linarith)]

/-- C2 (counterexample): starting from the initial state, the first 5
invocations of the Timer2 ISR execute no control cycle at all — the claim
places the first cycle on the 5th invocation — and the first cycle in fact
executes on the 6th invocation. -/
theorem claim_C2_counterexample : cyclesIn 5 = 0 ∧ cyclesIn 6 = 1 := by
  exact ⟨rfl, rfl⟩

/-- C2 (amended): invocation `n + 1` of the Timer2 ISR (from the initial
state) executes a control cycle exactly when `n` is a multiple of 5 with
`n ≥ 5`, i.e. the cycles run on invocations 6, 11, 16, ...: exactly one cycle
per 5 invocations, the first on the 6th invocation after start (the counter
starts at 0 and is incremented after the threshold test) and hence on the 5th
invocation after each reset of the decimation counter.  Equivalently, the
number of cycles in the first `n` invocations is `0` for `n ≤ 5` and
`(n - 1) / 5` afterwards. -/
theorem claim_C2 :
    (∀ n : Nat,
      (timer2ISR (runTimer2 n)).2.isSome = true ↔ (5 ≤ n ∧ n % 5 = 0)) ∧
    (∀ n : Nat, cyclesIn n = if n ≤ 5 then 0 else (n - 1) / 5) := by
  have hfire : ∀ n : Nat,
      (timer2ISR (runTimer2 n)).2.isSome = true ↔ (5 ≤ n ∧ n % 5 = 0) := by
    intro n
    rw [timer2ISR_isSome, divide_counter_eq]
    split <;> omega
  refine ⟨hfire, fun n => ?_⟩
  induction n with
  | zero => rfl
  | succ n ih =>
    rw [cyclesIn, ih]
    cases hf : (timer2ISR (runTimer2 n)).2.isSome
    · have hn := hfire n
      rw [hf] at hn
      simp only [Bool.false_eq_true, false_iff] at hn
      simp only [Bool.false_eq_true, if_false]
      split_ifs <;> omega
    · have hn := (hfire n).mp hf
      simp only [if_true]
      split_ifs <;> omega

/-- C3: starting from a control-cycle boundary (pulse counter equal to zero),
for every sequence of sampled pin levels short enough for the program's
integer types (fewer than 2^15 samples — the program samples at most 500 times
per 50 ms control period), the snapshot value that the control cycle passes to
the control law equals exactly the number of qualifying level transitions in
the sequence, and the pulse counter is exactly zero immediately after the
snapshot-and-reset step. -/
theorem claim_C3 (s : CtrlState) (pins : List Bool)
    (h0 : s.encoderCounts = 0) (hlen : pins.length < 32768) :
    toInt16 (runTimer1 s pins).encoderCounts
        = (countQual s.lastStateHigh pins : Int) ∧
    (controlCycle (runTimer1 s pins)).1.encoderCounts = 0 := by
  have hq : countQual s.lastStateHigh pins ≤ pins.length :=
    countQual_le_length _ _
  have hcnt : (runTimer1 s pins).encoderCounts
      = countQual s.lastStateHigh pins := by
    have hrun := runTimer1_encoderCounts pins s
      (by simp only [UINT_MOD]; omega)
    omega
  refine ⟨?_, by rw [controlCycle_fst]⟩
  rw [hcnt, toInt16, if_pos (by omega)]

/-- C3 (witness): the theorem applied to the initial state and the concrete
sample sequence high, high, low, which contains exactly two qualifying
transitions (low-to-high, then high-to-low). -/
theorem claim_C3_witness :
    toInt16 (runTimer1 initState [true, true, false]).encoderCounts
        = (countQual initState.lastStateHigh [true, true, false] : Int) ∧
    countQual initState.lastStateHigh [true, true, false] = 2 ∧
    (controlCycle (runTimer1 initState [true, true, false])).1.encoderCounts
        = 0 :=
  ⟨(claim_C3 initState [true, true, false] rfl (by decide)).1, by decide,
   (claim_C3 initState [true, true, false] rfl (by decide)).2⟩

/-- C4: the clamping step maps every raw control action, negative and
beyond-range values included, to the nearest point of
`[minimum_control_action, maximum_control_action]` (this is exactly
`min (max x 0) 250`), and the value the control cycle writes to the PWM output
is the clamp of the raw control action, hence always inside `[0, 250]`. -/
theorem claim_C4 :
    (∀ x : Int, minimum_control_action ≤ clampAction x ∧
      clampAction x ≤ maximum_control_action ∧
      clampAction x = min (max x minimum_control_action) maximum_control_action) ∧
    (∀ s : CtrlState, (controlCycle s).2.pwm
        = clampAction (CalculateControlAction (toInt16 s.encoderCounts)
            s.setpoint s.accumulated_error) ∧
      minimum_control_action ≤ (controlCycle s).2.pwm ∧
      (controlCycle s).2.pwm ≤ maximum_control_action) := by
  have hcl : ∀ x : Int, minimum_control_action ≤ clampAction x ∧
      clampAction x ≤ maximum_control_action ∧
      clampAction x = min (max x minimum_control_action) maximum_control_action := by
    intro x
    unfold clampAction minimum_control_action maximum_control_action
    split_ifs <;> refine ⟨by omega, by omega, by omega⟩
  refine ⟨hcl, fun s => ?_⟩
  have hpwm : (controlCycle s).2.pwm
      = clampAction (CalculateControlAction (toInt16 s.encoderCounts)
          s.setpoint s.accumulated_error) := rfl
  exact ⟨hpwm, by rw [hpwm]; exact (hcl _).1, by rw [hpwm]; exact (hcl _).2.1⟩

/-- C5: every invocation of the Timer1 ISR behaves as the state machine over
(last edge level, pulse counter) described by the specification — qualifying
high-to-low or low-to-high transitions increment the counter and flip the
remembered level, anything else changes no state — and the remembered level is
initialized to `false` at startup. -/
theorem claim_C5 :
    (∀ (pinHigh : Bool) (s : CtrlState),
      timer1ISR pinHigh s = timer1SpecStep pinHigh s) ∧
    initState.lastStateHigh = false := by
  refine ⟨fun pinHigh s => ?_, rfl⟩
  obtain ⟨c, l, d, sp, ae⟩ := s
  cases l <;> cases pinHigh <;> rfl

/-- C6 (counterexample): in the control cycle with setpoint 20 and snapshot
count 15, the telemetry line is not the string claimed — Arduino's
`Serial.print` renders the `float` setpoint and the scaled action with two
decimal digits, so the line is "15.0,20.00,25.00", not "15.0,20,25.0". -/
theorem claim_C6_counterexample :
    (controlCycle { initState with encoderCounts := 15 }).2.line
      ≠ "15.0,20,25.0" := by
  with_unfolding_all decide

/-- C6 (amended): with setpoint 20 and measured count 15, the control action
before clamping is `maximum_control_action` (250), the clamp leaves it
unchanged and it is written to the PWM output, and the telemetry line emitted
with the timestamp disabled is exactly "15.0,20.00,25.00", whose last field is
the clamped action divided by 10.0 rendered with the two decimal digits of
Arduino float printing. -/
theorem claim_C6 :
    CalculateControlAction 15 20 0 = maximum_control_action ∧
    clampAction maximum_control_action = maximum_control_action ∧
    (controlCycle { initState with encoderCounts := 15 }).2.pwm
      = maximum_control_action ∧
    (controlCycle { initState with encoderCounts := 15 }).2.line
      = "15.0,20.00,25.00" := by
  refine ⟨by decide, by decide, by decide, ?_⟩
  with_unfolding_all rfl

/-- C7: the setpoint mapping from the analog input sends raw reading 0 to
setpoint 0 and raw reading 1023 to setpoint 50, and on the whole range it is
the integer-truncated linear interpolation `x * 50 / 1023`. -/
theorem claim_C7 :
    setpointFromAnalog 0 = 0 ∧ setpointFromAnalog 1023 = 50 ∧
    (∀ x : Int, map x 0 1023 0 50 = Int.tdiv (x * 50) 1023) := by
  refine ⟨by decide, by decide, fun x => ?_⟩
  simp [map]

/-- C8: `accumulated_error` is dead state for the active bang-bang
configuration: a control cycle leaves it unchanged, the whole externally
visible output of a cycle is unchanged when it is replaced by an arbitrary
value, and the control law's result does not depend on its `error_sum`
argument. -/
theorem claim_C8 (s : CtrlState) (a : ℚ) (C : Int) (S e1 e2 : ℚ) :
    (controlCycle s).1.accumulated_error = s.accumulated_error ∧
    (controlCycle { s with accumulated_error := a }).2 = (controlCycle s).2 ∧
    CalculateControlAction C S e1 = CalculateControlAction C S e2 :=
  ⟨rfl, rfl, rfl⟩

/-- C9: the clamp is the identity on every value the bang-bang law can return
(0 and 250 both lie inside the clamp range), so the PWM value a control cycle
writes equals the raw control action itself. -/
theorem claim_C9 (C : Int) (S e : ℚ) (s : CtrlState) :
    clampAction (CalculateControlAction C S e) = CalculateControlAction C S e ∧
    (controlCycle s).2.pwm
      = CalculateControlAction (toInt16 s.encoderCounts) s.setpoint
          s.accumulated_error := by
  have hid : ∀ (D : Int) (T f : ℚ),
      clampAction (CalculateControlAction D T f) = CalculateControlAction D T f := by
    intro D T f
    unfold CalculateControlAction clampAction
    split <;> rfl
  refine ⟨hid C S e, ?_⟩
  have hpwm : (controlCycle s).2.pwm
      = clampAction (CalculateControlAction (toInt16 s.encoderCounts)
          s.setpoint s.accumulated_error) := rfl
  rw [hpwm, hid]

/-- C10: the decimation counter is 0 in the initial state and lies in
`[1, 5]` after every completed Timer2 ISR invocation; in particular it never
exceeds 5, so its 16-bit increment can never wrap. -/
theorem claim_C10 :
    (runTimer2 0).divide_frequency_counter = 0 ∧
    ∀ n : Nat, 1 ≤ (runTimer2 (n + 1)).divide_frequency_counter ∧
      (runTimer2 (n + 1)).divide_frequency_counter ≤ 5 := by
  refine ⟨rfl, fun n => ?_⟩
  rw [divide_counter_eq, if_neg (Nat.succ_ne_zero n)]
  omega

end MotorControl
